import Mathlib

/-!
# panda/src/android/config_android.cxx

A shallow embedding of the Android JNI bridge of Panda3D: the seven
module-global handles, `init_libandroid`, `JNI_OnLoad`, `JNI_OnUnload` and
`android_show_toast`.

The C++ code works on three pieces of mutable state, which the embedding
passes explicitly as one `World` value:

* the seven module-global variables (`Globals`),
* the global file-type registry together with the two self-registration
  flags of `PNMFileTypeAndroid`,
* the managed runtime as seen through JNI (`JavaVMState`): the table of live
  global references, the table of live local references and the log of
  method invocations made from native code.

The result of `Thread::get_current_thread()->get_jni_env()` is an input of
each entry point: `none` is the null pointer, `some env` is a usable call
environment, which carries the symbol tables of the managed side (which
classes, methods and fields can be resolved).

The JNI functions are described by what the JNI specification says of
them, restricted to references, strings and invocations; pending
exceptions are not tracked. A lookup on a null class handle gives null
here, where JNI leaves the behaviour open; the counterexamples below use a
managed side on which only the last lookup of `JNI_OnLoad` fails, so that
no JNI call is made on a null handle.
-/

namespace ConfigAndroid

/-! ## The managed runtime as seen through JNI -/

/-- An object of the managed heap, as far as this module can observe it. -/
inductive JObject where
  | cls (name : String)
  | str (chars : List Char)
  | inst (id : Nat)
  deriving DecidableEq

/-- A non-null JNI reference: a slot of the local or of the global table. -/
inductive JRef where
  | loc (slot : Nat)
  | glob (slot : Nat)
  deriving DecidableEq

/-- The C type `jobject`: a reference or the null pointer (`none`). -/
abbrev jobject := Option JRef

/-- The C type `jclass`. -/
abbrev jclass := jobject

/-- The C type `jstring`. -/
abbrev jstring := jobject

/-- What a non-null `jmethodID` identifies: a method of a class, by name and
signature, static or not. -/
structure MethodID where
  cls : String
  name : String
  sig : String
  isStatic : Bool
  deriving DecidableEq

/-- What a non-null `jfieldID` identifies: an instance field of a class, by
name and signature. -/
structure FieldID where
  cls : String
  name : String
  sig : String
  deriving DecidableEq

/-- The C type `jmethodID`; `none` is the null pointer. -/
abbrev jmethodID := Option MethodID

/-- The C type `jfieldID`; `none` is the null pointer. -/
abbrev jfieldID := Option FieldID

/-- An argument as the callee of `CallVoidMethod` receives it: the object a
reference argument denotes at the time of the call (`none` for null or for
a dead reference), or a `jint`. -/
inductive JValue where
  | obj (o : Option JObject)
  | int (i : Int)
  deriving DecidableEq

/-- One invocation of a managed method from native code. -/
structure Invocation where
  receiver : jobject
  method : jmethodID
  args : List JValue
  deriving DecidableEq

/-- The state of the managed runtime that JNI calls read and change. -/
structure JavaVMState where
  globalRefs : List (Nat × JObject)
  localRefs : List (Nat × JObject)
  calls : List Invocation
  deriving DecidableEq

/-- The call environment `JNIEnv *` of a thread: the symbol tables that the
lookups of `JNI_OnLoad` consult. -/
structure JNIEnv where
  hasClass : String → Bool
  hasStaticMethod : String → String → String → Bool
  hasMethod : String → String → String → Bool
  hasField : String → String → String → Bool

/-- The object stored in a slot of a reference table. -/
def lookupSlot (n : Nat) : List (Nat × JObject) → Option JObject
  | [] => none
  | (k, o) :: rest => if k = n then some o else lookupSlot n rest

/-- A slot number that no live reference of the table uses. -/
def freshSlot (tbl : List (Nat × JObject)) : Nat :=
  (tbl.map Prod.fst).foldr max 0 + 1

/-- The table without the slot `n`. -/
def dropSlot (n : Nat) (tbl : List (Nat × JObject)) : List (Nat × JObject) :=
  tbl.filter (fun p => decide (p.1 ≠ n))

/-- The object a `jobject` denotes; `none` for null and for dead references. -/
def JavaVMState.deref (vm : JavaVMState) : jobject → Option JObject
  | none => none
  | some (JRef.loc n) => lookupSlot n vm.localRefs
  | some (JRef.glob n) => lookupSlot n vm.globalRefs

/-- A new local reference to the object `o`. -/
def JavaVMState.newLocal (vm : JavaVMState) (o : JObject) : jobject × JavaVMState :=
  let n := freshSlot vm.localRefs
  (some (JRef.loc n), { vm with localRefs := vm.localRefs ++ [(n, o)] })

/-- JNI `FindClass`: a local reference to the named class, or null when the
class cannot be found. -/
def FindClass (env : JNIEnv) (vm : JavaVMState) (name : String) : jclass × JavaVMState :=
  if env.hasClass name then vm.newLocal (JObject.cls name) else (none, vm)

/-- JNI `NewGlobalRef`: a new global reference to the object that `obj`
denotes; null when `obj` is null. -/
def NewGlobalRef (vm : JavaVMState) (obj : jobject) : jobject × JavaVMState :=
  match vm.deref obj with
  | none => (none, vm)
  | some o =>
    let n := freshSlot vm.globalRefs
    (some (JRef.glob n), { vm with globalRefs := vm.globalRefs ++ [(n, o)] })

/-- JNI `DeleteGlobalRef`: frees the slot of a global reference. -/
def DeleteGlobalRef (vm : JavaVMState) (ref : jobject) : JavaVMState :=
  match ref with
  | some (JRef.glob n) => { vm with globalRefs := dropSlot n vm.globalRefs }
  | _ => vm

/-- JNI `DeleteLocalRef`: frees the slot of a local reference. -/
def DeleteLocalRef (vm : JavaVMState) (ref : jobject) : JavaVMState :=
  match ref with
  | some (JRef.loc n) => { vm with localRefs := dropSlot n vm.localRefs }
  | _ => vm

/-- JNI `GetStaticMethodID`: the identifier of the static method of the class
that `clazz` denotes, or null when it cannot be resolved. -/
def GetStaticMethodID (env : JNIEnv) (vm : JavaVMState) (clazz : jclass)
    (name sig : String) : jmethodID :=
  match vm.deref clazz with
  | some (JObject.cls c) =>
    if env.hasStaticMethod c name sig then some ⟨c, name, sig, true⟩ else none
  | _ => none

/-- JNI `GetMethodID`: the identifier of the instance method of the class
that `clazz` denotes, or null when it cannot be resolved. -/
def GetMethodID (env : JNIEnv) (vm : JavaVMState) (clazz : jclass)
    (name sig : String) : jmethodID :=
  match vm.deref clazz with
  | some (JObject.cls c) =>
    if env.hasMethod c name sig then some ⟨c, name, sig, false⟩ else none
  | _ => none

/-- JNI `GetFieldID`: the identifier of the instance field of the class that
`clazz` denotes, or null when it cannot be resolved. -/
def GetFieldID (env : JNIEnv) (vm : JavaVMState) (clazz : jclass)
    (name sig : String) : jfieldID :=
  match vm.deref clazz with
  | some (JObject.cls c) =>
    if env.hasField c name sig then some ⟨c, name, sig⟩ else none
  | _ => none

/-- The C++ `std::string::c_str()` as a reader of C strings sees it: the
characters before the first NUL. A `std::string` may hold NUL characters;
the message is modelled by the characters that its bytes encode. -/
def c_str (s : String) : List Char :=
  s.data.takeWhile (fun c => decide (c ≠ Char.ofNat 0))

/-- JNI `NewStringUTF`: a local reference to a new string object holding
the characters of the NUL-terminated C string. -/
def NewStringUTF (vm : JavaVMState) (utf : List Char) : jstring × JavaVMState :=
  vm.newLocal (JObject.str utf)

/-- JNI `CallVoidMethod` with a string and an int argument: the managed
method is invoked once; the log records what it receives. -/
def CallVoidMethod (vm : JavaVMState) (obj : jobject) (methodID : jmethodID)
    (a0 : jstring) (a1 : Int) : JavaVMState :=
  { vm with calls := vm.calls ++ [⟨obj, methodID, [JValue.obj (vm.deref a0), JValue.int a1]⟩] }

/-! ## The native side -/

/-- A registered image file type; `android` is a `PNMFileTypeAndroid`. -/
inductive PNMFileType where
  | android
  | other (name : String)
  deriving DecidableEq

/-- The seven module-global variables of config_android.cxx. -/
structure Globals where
  jni_PandaActivity : jclass
  jni_PandaActivity_readBitmapSize : jmethodID
  jni_PandaActivity_readBitmap : jmethodID
  jni_PandaActivity_showToast : jmethodID
  jni_BitmapFactory_Options : jclass
  jni_BitmapFactory_Options_outWidth : jfieldID
  jni_BitmapFactory_Options_outHeight : jfieldID
  deriving DecidableEq

/-- Everything the four functions read or write. -/
structure World where
  globals : Globals
  registry : List PNMFileType
  type_inited : Bool
  read_factory_registered : Bool
  jvm : JavaVMState
  deriving DecidableEq

/-- The C struct `ANativeActivity`, of which only the field `clazz` (the
activity object) is used. -/
structure ANativeActivity where
  clazz : jobject
  deriving DecidableEq

/-- The constant `JNI_VERSION_1_4` of jni.h. -/
def JNI_VERSION_1_4 : Int := 0x00010004

/-- Modelled from the spec: `PNMFileTypeRegistry::register_type`, which is
defined outside this source file. The spec says that the decoder is inserted
into the global file-type registry and that registering twice leaves two
decoder instances there. -/
def register_type (tr : List PNMFileType) (t : PNMFileType) : List PNMFileType :=
  tr ++ [t]

/-- Modelled from the spec: `PNMFileTypeAndroid::init_type`, which is defined
outside this source file. The spec calls it a self-registration of the
decoder type; the embedding records that it has run. -/
def init_type (w : World) : World :=
  { w with type_inited := true }

/-- Modelled from the spec: `PNMFileTypeAndroid::register_with_read_factory`,
which is defined outside this source file. The spec calls it a
self-registration of the decoder type; the embedding records that it has
run. -/
def register_with_read_factory (w : World) : World :=
  { w with read_factory_registered := true }

/-- Modelled from the spec: the macro `nassertr(condition, return_value)` of
pnotify.h, used here with the condition `env != nullptr`. When the condition
fails the enclosing function reports the failure and returns `return_value`;
otherwise it goes on, with the non-null pointer. -/
def nassertr {α β : Type} (ptr : Option α) (return_value : β) (rest : α → β) : β :=
  match ptr with
  | none => return_value
  | some p => rest p

/-- Modelled from the spec: the macro `nassertv(condition)` of pnotify.h, used
here with the condition `env != nullptr`. When the condition fails the
enclosing function reports the failure and returns; otherwise it goes on,
with the non-null pointer. -/
def nassertv {α : Type} (ptr : Option α) (unchanged : World) (rest : α → World) : World :=
  match ptr with
  | none => unchanged
  | some p => rest p

/-- The function `init_libandroid` (lines 38-44). -/
def init_libandroid (w : World) : World :=
  let w1 := init_type w
  let w2 := register_with_read_factory w1
  { w2 with registry := register_type w2.registry PNMFileType.android }

/-- The function `JNI_OnLoad` (lines 50-76). Each of the seven assignments
to a global is a field of the `Globals` value of the result; the class
handles are first assigned the local reference and then the global one, and
the lookups that follow read the global one. -/
def JNI_OnLoad (get_jni_env : Option JNIEnv) (w0 : World) : Int × World :=
  let w := init_libandroid w0
  nassertr get_jni_env (-1, w) fun env =>
    let (c0, vm1) := FindClass env w.jvm "org/panda3d/android/PandaActivity"
    let (pa, vm2) := NewGlobalRef vm1 c0
    let readBitmapSize := GetStaticMethodID env vm2 pa
      "readBitmapSize" "(J)Landroid/graphics/BitmapFactory$Options;"
    let readBitmap := GetStaticMethodID env vm2 pa
      "readBitmap" "(JI)Landroid/graphics/Bitmap;"
    let showToast := GetMethodID env vm2 pa
      "showToast" "(Ljava/lang/String;I)V"
    let (c1, vm3) := FindClass env vm2 "android/graphics/BitmapFactory$Options"
    let (bo, vm4) := NewGlobalRef vm3 c1
    let outWidth := GetFieldID env vm4 bo "outWidth" "I"
    let outHeight := GetFieldID env vm4 bo "outHeight" "I"
    (JNI_VERSION_1_4,
      { w with
        globals := ⟨pa, readBitmapSize, readBitmap, showToast, bo, outWidth, outHeight⟩
        jvm := vm4 })

/-- The function `JNI_OnUnload` (lines 82-89). -/
def JNI_OnUnload (get_jni_env : Option JNIEnv) (w : World) : World :=
  nassertv get_jni_env w fun _ =>
    let vm1 := DeleteGlobalRef w.jvm w.globals.jni_PandaActivity
    let vm2 := DeleteGlobalRef vm1 w.globals.jni_BitmapFactory_Options
    { w with jvm := vm2 }

/-- The function `android_show_toast` (lines 95-103). The cast
`(jint)duration` goes from one 32-bit signed type to another and keeps the
value. -/
def android_show_toast (get_jni_env : Option JNIEnv) (activity : ANativeActivity)
    (message : String) (duration : Int) (w : World) : World :=
  nassertv get_jni_env w fun _ =>
    let (jmsg, vm1) := NewStringUTF w.jvm (c_str message)
    let vm2 := CallVoidMethod vm1 activity.clazz w.globals.jni_PandaActivity_showToast
      jmsg duration
    let vm3 := DeleteLocalRef vm2 jmsg
    { w with jvm := vm3 }

/-! ## Predicates on the handle cache and sequences of calls -/

/-- All seven handles are null. -/
def Globals.allUnset (g : Globals) : Prop :=
  g.jni_PandaActivity = none ∧ g.jni_PandaActivity_readBitmapSize = none ∧
  g.jni_PandaActivity_readBitmap = none ∧ g.jni_PandaActivity_showToast = none ∧
  g.jni_BitmapFactory_Options = none ∧ g.jni_BitmapFactory_Options_outWidth = none ∧
  g.jni_BitmapFactory_Options_outHeight = none

/-- All seven handles are non-null. -/
def Globals.allSet (g : Globals) : Prop :=
  g.jni_PandaActivity ≠ none ∧ g.jni_PandaActivity_readBitmapSize ≠ none ∧
  g.jni_PandaActivity_readBitmap ≠ none ∧ g.jni_PandaActivity_showToast ≠ none ∧
  g.jni_BitmapFactory_Options ≠ none ∧ g.jni_BitmapFactory_Options_outWidth ≠ none ∧
  g.jni_BitmapFactory_Options_outHeight ≠ none

instance (g : Globals) : Decidable g.allUnset := by
  unfold Globals.allUnset; infer_instance

instance (g : Globals) : Decidable g.allSet := by
  unfold Globals.allSet; infer_instance

/-- Both classes that `JNI_OnLoad` looks up can be found. -/
def JNIEnv.resolvesClasses (env : JNIEnv) : Prop :=
  env.hasClass "org/panda3d/android/PandaActivity" = true ∧
  env.hasClass "android/graphics/BitmapFactory$Options" = true

/-- Every lookup of `JNI_OnLoad` succeeds: the two classes, the three
methods and the two fields. -/
def JNIEnv.resolvesAll (env : JNIEnv) : Prop :=
  env.hasClass "org/panda3d/android/PandaActivity" = true ∧
  env.hasStaticMethod "org/panda3d/android/PandaActivity"
    "readBitmapSize" "(J)Landroid/graphics/BitmapFactory$Options;" = true ∧
  env.hasStaticMethod "org/panda3d/android/PandaActivity"
    "readBitmap" "(JI)Landroid/graphics/Bitmap;" = true ∧
  env.hasMethod "org/panda3d/android/PandaActivity"
    "showToast" "(Ljava/lang/String;I)V" = true ∧
  env.hasClass "android/graphics/BitmapFactory$Options" = true ∧
  env.hasField "android/graphics/BitmapFactory$Options" "outWidth" "I" = true ∧
  env.hasField "android/graphics/BitmapFactory$Options" "outHeight" "I" = true

instance (env : JNIEnv) : Decidable env.resolvesClasses := by
  unfold JNIEnv.resolvesClasses; infer_instance

instance (env : JNIEnv) : Decidable env.resolvesAll := by
  unfold JNIEnv.resolvesAll; infer_instance

/-- One call of an entry point by the host, with the outcome of the
environment lookup that the call makes. -/
inductive Op where
  | on_load (get_jni_env : Option JNIEnv)
  | show_toast (get_jni_env : Option JNIEnv) (activity : ANativeActivity)
      (message : String) (duration : Int)
  | on_unload (get_jni_env : Option JNIEnv)

/-- The world after one call. -/
def step (w : World) : Op → World
  | Op.on_load e => (JNI_OnLoad e w).2
  | Op.show_toast e a m d => android_show_toast e a m d w
  | Op.on_unload e => JNI_OnUnload e w

/-- The world after a sequence of calls. -/
def run (w : World) (ops : List Op) : World :=
  ops.foldl step w

/-- The call is not an `on_load` that meets a symbol it cannot resolve. -/
def Op.resolves : Op → Prop
  | Op.on_load (some env) => env.resolvesAll
  | _ => True

/-- The state of a freshly mapped module: zero-initialised globals, empty
registry, and a runtime in which the host holds one global reference, to
the activity object. -/
def World.initial : World :=
  { globals := ⟨none, none, none, none, none, none, none⟩
    registry := []
    type_inited := false
    read_factory_registered := false
    jvm := ⟨[(1, JObject.inst 0)], [], []⟩ }

/-- The native activity whose `clazz` is the host's reference of
`World.initial`. -/
def theActivity : ANativeActivity :=
  ⟨some (JRef.glob 1)⟩

/-- A message with a NUL character in the middle. -/
def nulMessage : String :=
  String.mk ['H', 'i', Char.ofNat 0, 'x']

/-- A managed side on which every class, method and field resolves. -/
def fullEnv : JNIEnv :=
  { hasClass := fun _ => true
    hasStaticMethod := fun _ _ _ => true
    hasMethod := fun _ _ _ => true
    hasField := fun _ _ _ => true }

/-- A managed side whose bitmap options class lacks the field `outHeight`;
everything else resolves. -/
def noOutHeightEnv : JNIEnv :=
  { hasClass := fun _ => true
    hasStaticMethod := fun _ _ _ => true
    hasMethod := fun _ _ _ => true
    hasField := fun _ name _ => decide (name ≠ "outHeight") }

/-! ## Reference tables -/

theorem slot_lt_freshSlot (tbl : List (Nat × JObject)) :
    ∀ p ∈ tbl, p.1 < freshSlot tbl := by
  induction tbl with
  | nil => intro p hp; cases hp
  | cons q rest ih =>
    intro p hp
    have hrest : freshSlot (q :: rest) = max q.1 (freshSlot rest - 1) + 1 := by
      simp [freshSlot]
    rcases List.mem_cons.mp hp with h | h
    · subst h; rw [hrest]; omega
    · have := ih p h
      rw [hrest]; omega

theorem lookupSlot_append_of_lt (n : Nat) (o : JObject) (tbl rest : List (Nat × JObject))
    (h : ∀ p ∈ tbl, p.1 < n) : lookupSlot n (tbl ++ (n, o) :: rest) = some o := by
  induction tbl with
  | nil => simp [lookupSlot]
  | cons q rest ih =>
    obtain ⟨k, v⟩ := q
    have hk : k < n := h (k, v) (List.mem_cons_self _ _)
    have hne : k ≠ n := by omega
    simp only [List.cons_append, lookupSlot, hne, if_false]
    exact ih (fun p hp => h p (List.mem_cons_of_mem _ hp))

theorem lookupSlot_eq_none_of_lt (n : Nat) (tbl : List (Nat × JObject))
    (h : ∀ p ∈ tbl, p.1 < n) : lookupSlot n tbl = none := by
  induction tbl with
  | nil => simp [lookupSlot]
  | cons q rest ih =>
    obtain ⟨k, v⟩ := q
    have hk : k < n := h (k, v) (List.mem_cons_self _ _)
    have hne : k ≠ n := by omega
    simp only [lookupSlot, hne, if_false]
    exact ih (fun p hp => h p (List.mem_cons_of_mem _ hp))

theorem dropSlot_eq_self_of_lt (n : Nat) (tbl : List (Nat × JObject))
    (h : ∀ p ∈ tbl, p.1 < n) : dropSlot n tbl = tbl := by
  unfold dropSlot
  apply List.filter_eq_self.mpr
  intro p hp
  have := h p hp
  simp; omega

theorem lookupSlot_fresh (o : JObject) (tbl : List (Nat × JObject)) :
    lookupSlot (freshSlot tbl) (tbl ++ [(freshSlot tbl, o)]) = some o :=
  lookupSlot_append_of_lt _ _ _ [] (slot_lt_freshSlot tbl)

theorem lookupSlot_fresh_none (tbl : List (Nat × JObject)) :
    lookupSlot (freshSlot tbl) tbl = none :=
  lookupSlot_eq_none_of_lt _ _ (slot_lt_freshSlot tbl)

theorem dropSlot_fresh (o : JObject) (tbl : List (Nat × JObject)) :
    dropSlot (freshSlot tbl) (tbl ++ [(freshSlot tbl, o)]) = tbl := by
  have h := dropSlot_eq_self_of_lt _ _ (slot_lt_freshSlot tbl)
  unfold dropSlot at h ⊢
  rw [List.filter_append, h]
  simp

theorem freshSlot_append (o : JObject) (tbl : List (Nat × JObject)) :
    freshSlot (tbl ++ [(freshSlot tbl, o)]) = freshSlot tbl + 1 := by
  have key : ∀ (n : Nat) (t : List (Nat × JObject)), (∀ p ∈ t, p.1 < n) →
      freshSlot (t ++ [(n, o)]) = n + 1 := by
    intro n t
    induction t with
    | nil => intro _; simp [freshSlot]
    | cons q rest ih =>
      intro h
      have hq : q.1 < n := h q (List.mem_cons_self _ _)
      have := ih (fun p hp => h p (List.mem_cons_of_mem _ hp))
      simp only [freshSlot, List.cons_append, List.map_cons, List.foldr_cons] at this ⊢
      omega
  exact key _ _ (slot_lt_freshSlot tbl)

/-! ## The effect of each entry point -/

theorem JNI_OnLoad_of_classes (env : JNIEnv) (w : World) (h : env.resolvesClasses) :
    JNI_OnLoad (some env) w =
      (JNI_VERSION_1_4,
        { init_libandroid w with
          globals :=
            ⟨some (JRef.glob (freshSlot w.jvm.globalRefs)),
              if env.hasStaticMethod "org/panda3d/android/PandaActivity"
                  "readBitmapSize" "(J)Landroid/graphics/BitmapFactory$Options;" then
                some ⟨"org/panda3d/android/PandaActivity", "readBitmapSize",
                  "(J)Landroid/graphics/BitmapFactory$Options;", true⟩
              else none,
              if env.hasStaticMethod "org/panda3d/android/PandaActivity"
                  "readBitmap" "(JI)Landroid/graphics/Bitmap;" then
                some ⟨"org/panda3d/android/PandaActivity", "readBitmap",
                  "(JI)Landroid/graphics/Bitmap;", true⟩
              else none,
              if env.hasMethod "org/panda3d/android/PandaActivity"
                  "showToast" "(Ljava/lang/String;I)V" then
                some ⟨"org/panda3d/android/PandaActivity", "showToast",
                  "(Ljava/lang/String;I)V", false⟩
              else none,
              some (JRef.glob (freshSlot w.jvm.globalRefs + 1)),
              if env.hasField "android/graphics/BitmapFactory$Options" "outWidth" "I" then
                some ⟨"android/graphics/BitmapFactory$Options", "outWidth", "I"⟩
              else none,
              if env.hasField "android/graphics/BitmapFactory$Options" "outHeight" "I" then
                some ⟨"android/graphics/BitmapFactory$Options", "outHeight", "I"⟩
              else none⟩
          jvm :=
            { globalRefs := w.jvm.globalRefs ++
                [(freshSlot w.jvm.globalRefs, JObject.cls "org/panda3d/android/PandaActivity"),
                 (freshSlot w.jvm.globalRefs + 1,
                   JObject.cls "android/graphics/BitmapFactory$Options")]
              localRefs := w.jvm.localRefs ++
                [(freshSlot w.jvm.localRefs, JObject.cls "org/panda3d/android/PandaActivity"),
                 (freshSlot w.jvm.localRefs + 1,
                   JObject.cls "android/graphics/BitmapFactory$Options")]
              calls := w.jvm.calls } }) := by
  obtain ⟨h1, h2⟩ := h
  simp only [JNI_OnLoad, nassertr, FindClass, h1, h2, if_true, JavaVMState.newLocal, NewGlobalRef,
    JavaVMState.deref, lookupSlot_fresh, GetStaticMethodID, GetMethodID, GetFieldID,
    init_libandroid, init_type, register_with_read_factory]
  simp only [freshSlot_append, List.append_assoc, List.singleton_append]

theorem JNI_OnLoad_none (w : World) : JNI_OnLoad none w = (-1, init_libandroid w) := rfl

theorem resolvesClasses_of_resolvesAll (env : JNIEnv) (h : env.resolvesAll) :
    env.resolvesClasses :=
  ⟨h.1, h.2.2.2.2.1⟩

theorem lookupSlot_first_of_two (t : List (Nat × JObject)) (a b : JObject) :
    lookupSlot (freshSlot t) (t ++ [(freshSlot t, a), (freshSlot t + 1, b)]) = some a :=
  lookupSlot_append_of_lt _ _ _ _ (slot_lt_freshSlot t)

theorem lookupSlot_second_of_two (t : List (Nat × JObject)) (a b : JObject) :
    lookupSlot (freshSlot t + 1) (t ++ [(freshSlot t, a), (freshSlot t + 1, b)]) = some b := by
  have h : ∀ p ∈ t ++ [(freshSlot t, a)], p.1 < freshSlot t + 1 := by
    intro p hp
    rcases List.mem_append.mp hp with hp | hp
    · have := slot_lt_freshSlot t p hp; omega
    · simp at hp; subst hp; simp
  have := lookupSlot_append_of_lt (freshSlot t + 1) b (t ++ [(freshSlot t, a)]) [] h
  simpa using this

theorem dropSlot_two_fresh (t : List (Nat × JObject)) (a b : JObject) :
    dropSlot (freshSlot t + 1)
      (dropSlot (freshSlot t) (t ++ [(freshSlot t, a), (freshSlot t + 1, b)])) = t := by
  have h0 : dropSlot (freshSlot t) t = t :=
    dropSlot_eq_self_of_lt _ _ (slot_lt_freshSlot t)
  have h1 : dropSlot (freshSlot t + 1) t = t :=
    dropSlot_eq_self_of_lt _ _ (fun p hp => by have := slot_lt_freshSlot t p hp; omega)
  unfold dropSlot at h0 h1 ⊢
  rw [List.filter_append, h0, List.filter_append, h1]
  simp

theorem JNI_OnUnload_globals (get_jni_env : Option JNIEnv) (w : World) :
    (JNI_OnUnload get_jni_env w).globals = w.globals := by
  cases get_jni_env <;> rfl

theorem android_show_toast_some (env : JNIEnv) (activity : ANativeActivity)
    (message : String) (duration : Int) (w : World) :
    android_show_toast (some env) activity message duration w =
      { w with
        jvm := { w.jvm with
          calls := w.jvm.calls ++
            [⟨activity.clazz, w.globals.jni_PandaActivity_showToast,
              [JValue.obj (some (JObject.str (c_str message))), JValue.int duration]⟩] } } := by
  simp only [android_show_toast, nassertv, NewStringUTF, JavaVMState.newLocal, CallVoidMethod,
    JavaVMState.deref, lookupSlot_fresh, DeleteLocalRef, dropSlot_fresh]

theorem android_show_toast_globals (get_jni_env : Option JNIEnv) (activity : ANativeActivity)
    (message : String) (duration : Int) (w : World) :
    (android_show_toast get_jni_env activity message duration w).globals = w.globals := by
  cases get_jni_env with
  | none => rfl
  | some env => rw [android_show_toast_some]

theorem c_str_of_no_nul (message : String) (h : Char.ofNat 0 ∉ message.data) :
    c_str message = message.data := by
  unfold c_str
  apply List.takeWhile_eq_self_iff.mpr
  intro c hc
  have : c ≠ Char.ofNat 0 := fun e => h (e ▸ hc)
  simpa using this

/-! ## The claims -/

/-- C1: `JNI_OnLoad` returns `JNI_VERSION_1_4`, which is 0x00010004, whenever
a call environment is obtained, returns -1 otherwise, and so returns -1
exactly when no call environment is obtained. -/
theorem JNI_OnLoad_return_value (get_jni_env : Option JNIEnv) (w : World) :
    JNI_VERSION_1_4 = 0x00010004 ∧
    (JNI_OnLoad get_jni_env w).1 = (if get_jni_env.isSome then JNI_VERSION_1_4 else -1) ∧
    ((JNI_OnLoad get_jni_env w).1 = -1 ↔ get_jni_env.isSome = false) := by
  cases get_jni_env with
  | none => simp [JNI_OnLoad_none, JNI_VERSION_1_4]
  | some env =>
    have h : (JNI_OnLoad (some env) w).1 = JNI_VERSION_1_4 := rfl
    simp [h, JNI_VERSION_1_4]

/-- C2, as stated, fails: after a successful load, a toast whose message
holds a NUL character reaches the callback once, on the given activity and
through the cached `showToast` identifier, but with the text cut at the NUL,
which is not the given message. -/
theorem android_show_toast_cuts_at_nul :
    (android_show_toast (some fullEnv) theActivity nulMessage 1
        (JNI_OnLoad (some fullEnv) World.initial).2).jvm.calls =
      [⟨theActivity.clazz,
        some ⟨"org/panda3d/android/PandaActivity", "showToast", "(Ljava/lang/String;I)V", false⟩,
        [JValue.obj (some (JObject.str ['H', 'i'])), JValue.int 1]⟩] ∧
    ['H', 'i'] ≠ nulMessage.data := by
  decide

/-- C2, amended: after a load in which every lookup succeeded,
`android_show_toast` with a call environment changes nothing but the
invocation log, to which it adds exactly one invocation: on `activity->clazz`,
through the cached identifier of the instance method `showToast` with
signature `(Ljava/lang/String;I)V`, with the duration unchanged and with the
characters of the message before its first NUL, which is the whole message
when it holds no NUL. -/
theorem android_show_toast_after_load (env0 env1 : JNIEnv) (w : World)
    (activity : ANativeActivity) (message : String) (duration : Int)
    (h : env0.resolvesAll) :
    (JNI_OnLoad (some env0) w).2.globals.jni_PandaActivity_showToast =
      some ⟨"org/panda3d/android/PandaActivity", "showToast", "(Ljava/lang/String;I)V", false⟩ ∧
    android_show_toast (some env1) activity message duration (JNI_OnLoad (some env0) w).2 =
      { (JNI_OnLoad (some env0) w).2 with
        jvm := { (JNI_OnLoad (some env0) w).2.jvm with
          calls := (JNI_OnLoad (some env0) w).2.jvm.calls ++
            [⟨activity.clazz,
              some ⟨"org/panda3d/android/PandaActivity", "showToast",
                "(Ljava/lang/String;I)V", false⟩,
              [JValue.obj (some (JObject.str (c_str message))), JValue.int duration]⟩] } } ∧
    (Char.ofNat 0 ∉ message.data → c_str message = message.data) := by
  have hm : (JNI_OnLoad (some env0) w).2.globals.jni_PandaActivity_showToast =
      some ⟨"org/panda3d/android/PandaActivity", "showToast",
        "(Ljava/lang/String;I)V", false⟩ := by
    rw [JNI_OnLoad_of_classes env0 w (resolvesClasses_of_resolvesAll env0 h)]
    simp [h.2.2.2.1]
  refine ⟨hm, ?_, c_str_of_no_nul message⟩
  rw [android_show_toast_some, hm]

/-- Witness of C2, amended: "Hello" with duration 0 after a load on a managed
side where everything resolves. -/
theorem android_show_toast_after_load_witness :
    fullEnv.resolvesAll ∧
    (android_show_toast (some fullEnv) theActivity "Hello" 0
        (JNI_OnLoad (some fullEnv) World.initial).2).jvm.calls =
      [⟨some (JRef.glob 1),
        some ⟨"org/panda3d/android/PandaActivity", "showToast", "(Ljava/lang/String;I)V", false⟩,
        [JValue.obj (some (JObject.str ['H', 'e', 'l', 'l', 'o'])), JValue.int 0]⟩] := by
  refine ⟨by decide, ?_⟩
  rw [(android_show_toast_after_load fullEnv fullEnv World.initial theActivity "Hello" 0
    (by decide)).2.1]
  decide

/-- C3: when a call environment is obtained and every lookup succeeds, after
`JNI_OnLoad` the two class handles are global references that denote the
classes `org/panda3d/android/PandaActivity` and
`android/graphics/BitmapFactory$Options`, the three method handles and the
two field handles are the identifiers resolved for their own class, name and
signature, and so all seven handles are set. -/
theorem JNI_OnLoad_populates (env : JNIEnv) (w : World) (h : env.resolvesAll) :
    (∃ n, (JNI_OnLoad (some env) w).2.globals.jni_PandaActivity = some (JRef.glob n)) ∧
    (JNI_OnLoad (some env) w).2.jvm.deref (JNI_OnLoad (some env) w).2.globals.jni_PandaActivity =
      some (JObject.cls "org/panda3d/android/PandaActivity") ∧
    (JNI_OnLoad (some env) w).2.globals.jni_PandaActivity_readBitmapSize =
      some ⟨"org/panda3d/android/PandaActivity", "readBitmapSize",
        "(J)Landroid/graphics/BitmapFactory$Options;", true⟩ ∧
    (JNI_OnLoad (some env) w).2.globals.jni_PandaActivity_readBitmap =
      some ⟨"org/panda3d/android/PandaActivity", "readBitmap",
        "(JI)Landroid/graphics/Bitmap;", true⟩ ∧
    (JNI_OnLoad (some env) w).2.globals.jni_PandaActivity_showToast =
      some ⟨"org/panda3d/android/PandaActivity", "showToast",
        "(Ljava/lang/String;I)V", false⟩ ∧
    (∃ n, (JNI_OnLoad (some env) w).2.globals.jni_BitmapFactory_Options =
      some (JRef.glob n)) ∧
    (JNI_OnLoad (some env) w).2.jvm.deref
        (JNI_OnLoad (some env) w).2.globals.jni_BitmapFactory_Options =
      some (JObject.cls "android/graphics/BitmapFactory$Options") ∧
    (JNI_OnLoad (some env) w).2.globals.jni_BitmapFactory_Options_outWidth =
      some ⟨"android/graphics/BitmapFactory$Options", "outWidth", "I"⟩ ∧
    (JNI_OnLoad (some env) w).2.globals.jni_BitmapFactory_Options_outHeight =
      some ⟨"android/graphics/BitmapFactory$Options", "outHeight", "I"⟩ ∧
    (JNI_OnLoad (some env) w).2.globals.allSet := by
  rw [JNI_OnLoad_of_classes env w (resolvesClasses_of_resolvesAll env h)]
  obtain ⟨_, h2, h3, h4, _, h6, h7⟩ := h
  simp [h2, h3, h4, h6, h7, JavaVMState.deref, lookupSlot_first_of_two,
    lookupSlot_second_of_two, Globals.allSet]

/-- Witness of C3: the load of a fresh module on a managed side where
everything resolves. -/
theorem JNI_OnLoad_populates_witness :
    fullEnv.resolvesAll ∧ (JNI_OnLoad (some fullEnv) World.initial).2.globals.allSet :=
  ⟨by decide, (JNI_OnLoad_populates fullEnv World.initial (by decide)).2.2.2.2.2.2.2.2.2⟩

/-- C4, as stated, fails: after a successful load and an unload with a call
environment, the seven handles are not null; all of them are still set. -/
theorem JNI_OnUnload_does_not_clear :
    ¬ (JNI_OnUnload (some fullEnv)
        (JNI_OnLoad (some fullEnv) World.initial).2).globals.allUnset ∧
    (JNI_OnUnload (some fullEnv)
        (JNI_OnLoad (some fullEnv) World.initial).2).globals.allSet := by
  decide

/-- C4, amended: after a load in which every lookup succeeded, `JNI_OnUnload`
with a call environment leaves the seven handles as the load set them, all
non-null, and releases the two global references, so that the two class
handles no longer denote an object. -/
theorem JNI_OnUnload_keeps_handles (env0 env1 : JNIEnv) (w : World) (h : env0.resolvesAll) :
    (JNI_OnUnload (some env1) (JNI_OnLoad (some env0) w).2).globals =
      (JNI_OnLoad (some env0) w).2.globals ∧
    (JNI_OnUnload (some env1) (JNI_OnLoad (some env0) w).2).globals.allSet ∧
    (JNI_OnUnload (some env1) (JNI_OnLoad (some env0) w).2).jvm.deref
      (JNI_OnUnload (some env1) (JNI_OnLoad (some env0) w).2).globals.jni_PandaActivity = none ∧
    (JNI_OnUnload (some env1) (JNI_OnLoad (some env0) w).2).jvm.deref
      (JNI_OnUnload (some env1)
        (JNI_OnLoad (some env0) w).2).globals.jni_BitmapFactory_Options = none := by
  have hlt : ∀ p ∈ w.jvm.globalRefs, p.1 < freshSlot w.jvm.globalRefs + 1 := by
    intro p hp
    have := slot_lt_freshSlot _ p hp
    omega
  rw [JNI_OnLoad_of_classes env0 w (resolvesClasses_of_resolvesAll env0 h)]
  obtain ⟨_, h2, h3, h4, _, h6, h7⟩ := h
  simp [h2, h3, h4, h6, h7, JNI_OnUnload, nassertv, DeleteGlobalRef, JavaVMState.deref,
    dropSlot_two_fresh, lookupSlot_fresh_none, lookupSlot_eq_none_of_lt _ _ hlt,
    Globals.allSet]

/-- Witness of C4, amended: load and unload of a fresh module on a managed
side where everything resolves. -/
theorem JNI_OnUnload_keeps_handles_witness :
    fullEnv.resolvesAll ∧
    (JNI_OnUnload (some fullEnv) (JNI_OnLoad (some fullEnv) World.initial).2).globals =
      (JNI_OnLoad (some fullEnv) World.initial).2.globals :=
  ⟨by decide, (JNI_OnUnload_keeps_handles fullEnv fullEnv World.initial (by decide)).1⟩

/-- C5, as stated, fails: on a managed side where the field `outHeight`
cannot be resolved, `JNI_OnLoad` returns the version code and stores a null
handle for the field. -/
theorem JNI_OnLoad_unresolved_field_returns_version :
    ¬ noOutHeightEnv.resolvesAll ∧
    (JNI_OnLoad (some noOutHeightEnv) World.initial).1 = JNI_VERSION_1_4 ∧
    (JNI_OnLoad (some noOutHeightEnv)
      World.initial).2.globals.jni_BitmapFactory_Options_outHeight = none := by
  decide

/-- C5, amended: with a call environment `JNI_OnLoad` returns the version
code whatever the lookups give, and, when both classes are found, the handle
of each method and field is null exactly when its lookup fails. -/
theorem JNI_OnLoad_ignores_resolution (env : JNIEnv) (w : World) :
    (JNI_OnLoad (some env) w).1 = JNI_VERSION_1_4 ∧
    (env.resolvesClasses →
      ((JNI_OnLoad (some env) w).2.globals.jni_PandaActivity_readBitmapSize = none ↔
        env.hasStaticMethod "org/panda3d/android/PandaActivity" "readBitmapSize"
          "(J)Landroid/graphics/BitmapFactory$Options;" = false) ∧
      ((JNI_OnLoad (some env) w).2.globals.jni_PandaActivity_readBitmap = none ↔
        env.hasStaticMethod "org/panda3d/android/PandaActivity" "readBitmap"
          "(JI)Landroid/graphics/Bitmap;" = false) ∧
      ((JNI_OnLoad (some env) w).2.globals.jni_PandaActivity_showToast = none ↔
        env.hasMethod "org/panda3d/android/PandaActivity" "showToast"
          "(Ljava/lang/String;I)V" = false) ∧
      ((JNI_OnLoad (some env) w).2.globals.jni_BitmapFactory_Options_outWidth = none ↔
        env.hasField "android/graphics/BitmapFactory$Options" "outWidth" "I" = false) ∧
      ((JNI_OnLoad (some env) w).2.globals.jni_BitmapFactory_Options_outHeight = none ↔
        env.hasField "android/graphics/BitmapFactory$Options" "outHeight" "I" = false)) := by
  refine ⟨rfl, fun hc => ?_⟩
  rw [JNI_OnLoad_of_classes env w hc]
  simp

/-- Witness of C5, amended: the managed side without `outHeight`. -/
theorem JNI_OnLoad_ignores_resolution_witness :
    noOutHeightEnv.resolvesClasses ∧
    ((JNI_OnLoad (some noOutHeightEnv)
        World.initial).2.globals.jni_BitmapFactory_Options_outHeight = none ↔
      noOutHeightEnv.hasField "android/graphics/BitmapFactory$Options" "outHeight" "I"
        = false) :=
  ⟨by decide,
    ((JNI_OnLoad_ignores_resolution noOutHeightEnv World.initial).2 (by decide)).2.2.2.2⟩

/-- C6, as stated, fails: from the initial state, whose handles are all
null, one `on_load` on a managed side without the field `outHeight` reaches
a state in which six handles are set and one is null. -/
theorem handles_partly_set_reachable :
    World.initial.globals.allUnset ∧
    ¬ ((run World.initial [Op.on_load (some noOutHeightEnv)]).globals.allUnset ∨
       (run World.initial [Op.on_load (some noOutHeightEnv)]).globals.allSet) := by
  decide

theorem step_uniform (w : World) (op : Op) (hop : op.resolves)
    (hw : w.globals.allUnset ∨ w.globals.allSet) :
    (step w op).globals.allUnset ∨ (step w op).globals.allSet := by
  cases op with
  | on_load e =>
    cases e with
    | none => exact hw
    | some env =>
      right
      have hall : env.resolvesAll := hop
      show (JNI_OnLoad (some env) w).2.globals.allSet
      rw [JNI_OnLoad_of_classes env w (resolvesClasses_of_resolvesAll env hall)]
      obtain ⟨_, h2, h3, h4, _, h6, h7⟩ := hall
      simp [h2, h3, h4, h6, h7, Globals.allSet]
  | show_toast e a m d =>
    show (android_show_toast e a m d w).globals.allUnset ∨
      (android_show_toast e a m d w).globals.allSet
    rw [android_show_toast_globals]; exact hw
  | on_unload e =>
    show (JNI_OnUnload e w).globals.allUnset ∨ (JNI_OnUnload e w).globals.allSet
    rw [JNI_OnUnload_globals]; exact hw

/-- C6, amended: in every state reached from a state with all handles null by
any sequence of `on_load`, `show_toast` and `on_unload` calls, under any
outcome of the environment lookups, the seven handles are all null or all
set, provided that every `on_load` that obtains a call environment resolves
all seven symbols. -/
theorem handles_uniform_when_resolving (w : World) (ops : List Op)
    (h0 : w.globals.allUnset) (hres : ∀ op ∈ ops, op.resolves) :
    (run w ops).globals.allUnset ∨ (run w ops).globals.allSet := by
  have key : ∀ (l : List Op) (v : World), (∀ op ∈ l, op.resolves) →
      (v.globals.allUnset ∨ v.globals.allSet) →
      ((run v l).globals.allUnset ∨ (run v l).globals.allSet) := by
    intro l
    induction l with
    | nil => intro v _ hv; exact hv
    | cons op rest ih =>
      intro v hl hv
      exact ih (step v op) (fun o ho => hl o (List.mem_cons_of_mem _ ho))
        (step_uniform v op (hl op (List.mem_cons_self _ _)) hv)
  exact key ops w hres (Or.inl h0)

/-- Witness of C6, amended: a failed load, a load, a toast, an unload and a
toast without environment, from the initial state. -/
theorem handles_uniform_when_resolving_witness :
    World.initial.globals.allUnset ∧
    ((run World.initial
        [Op.on_load none, Op.on_load (some fullEnv), Op.show_toast (some fullEnv) theActivity
          "Hello" 0, Op.on_unload (some fullEnv), Op.show_toast none theActivity "x" 1]
      ).globals.allUnset ∨
     (run World.initial
        [Op.on_load none, Op.on_load (some fullEnv), Op.show_toast (some fullEnv) theActivity
          "Hello" 0, Op.on_unload (some fullEnv), Op.show_toast none theActivity "x" 1]
      ).globals.allSet) :=
  ⟨by decide, handles_uniform_when_resolving World.initial _ (by decide) (by
    intro op hop
    simp only [List.mem_cons, List.mem_singleton, List.not_mem_nil, or_false] at hop
    rcases hop with h | h | h | h | h <;> subst h
    · trivial
    · exact (by decide : fullEnv.resolvesAll)
    · trivial
    · trivial
    · trivial)⟩

/-- C7: without a call environment, `android_show_toast` and `JNI_OnUnload`
return the world they were given: no string is created, no method is
invoked, no global reference is released and the seven handles keep their
values. -/
theorem no_env_no_effect (activity : ANativeActivity) (message : String) (duration : Int)
    (w : World) :
    android_show_toast none activity message duration w = w ∧ JNI_OnUnload none w = w :=
  ⟨rfl, rfl⟩

/-- C8: each call of `init_libandroid` appends exactly one `PNMFileTypeAndroid`
to the registry and keeps every earlier entry, so the number of platform
decoders grows by one with each call and by two with two calls; the second
call does change the world. -/
theorem init_libandroid_registers_one (w : World) :
    (init_libandroid w).registry = w.registry ++ [PNMFileType.android] ∧
    (init_libandroid w).registry.count PNMFileType.android =
      w.registry.count PNMFileType.android + 1 ∧
    (init_libandroid w).registry.length = w.registry.length + 1 ∧
    (init_libandroid (init_libandroid w)).registry =
      w.registry ++ [PNMFileType.android, PNMFileType.android] ∧
    (init_libandroid (init_libandroid w)).registry.count PNMFileType.android =
      w.registry.count PNMFileType.android + 2 ∧
    init_libandroid (init_libandroid w) ≠ init_libandroid w := by
  have h1 : (init_libandroid w).registry = w.registry ++ [PNMFileType.android] := rfl
  have h2 : (init_libandroid (init_libandroid w)).registry =
      w.registry ++ [PNMFileType.android, PNMFileType.android] := by
    simp [init_libandroid, register_type, init_type, register_with_read_factory]
  refine ⟨h1, ?_, ?_, h2, ?_, ?_⟩
  · rw [h1]; simp [List.count_append]
  · rw [h1]; simp
  · rw [h2]; simp [List.count_append]
  · intro he
    have := congrArg (fun v => v.registry.length) he
    simp only [h1, h2] at this
    simp at this

/-- C9: when a call environment is obtained and both classes are found,
`JNI_OnLoad` adds exactly two global references, to the two classes, which
are the two class handles, and `JNI_OnUnload` releases exactly these, so
the table of live global references after load and unload is the table
before the load. -/
theorem load_unload_global_refs (env0 env1 : JNIEnv) (w : World)
    (h : env0.resolvesClasses) :
    (JNI_OnLoad (some env0) w).2.jvm.globalRefs =
      w.jvm.globalRefs ++
        [(freshSlot w.jvm.globalRefs, JObject.cls "org/panda3d/android/PandaActivity"),
         (freshSlot w.jvm.globalRefs + 1,
           JObject.cls "android/graphics/BitmapFactory$Options")] ∧
    (JNI_OnLoad (some env0) w).2.globals.jni_PandaActivity =
      some (JRef.glob (freshSlot w.jvm.globalRefs)) ∧
    (JNI_OnLoad (some env0) w).2.globals.jni_BitmapFactory_Options =
      some (JRef.glob (freshSlot w.jvm.globalRefs + 1)) ∧
    (JNI_OnUnload (some env1) (JNI_OnLoad (some env0) w).2).jvm.globalRefs =
      w.jvm.globalRefs := by
  rw [JNI_OnLoad_of_classes env0 w h]
  simp [JNI_OnUnload, nassertv, DeleteGlobalRef, dropSlot_two_fresh]

/-- Witness of C9: load and unload from the initial state, in which the
host holds one global reference. -/
theorem load_unload_global_refs_witness :
    fullEnv.resolvesClasses ∧
    (JNI_OnUnload (some fullEnv) (JNI_OnLoad (some fullEnv) World.initial).2).jvm.globalRefs =
      [(1, JObject.inst 0)] :=
  ⟨by decide, (load_unload_global_refs fullEnv fullEnv World.initial (by decide)).2.2.2⟩

/-- C10: every call of `JNI_OnLoad` leaves the registry with exactly one more
platform decoder, appended by `init_libandroid` before the environment is
looked up; without a call environment the result is -1 and the world of
`init_libandroid`, whose handles and runtime are those before the call but
whose registry is not. -/
theorem JNI_OnLoad_registers_first (get_jni_env : Option JNIEnv) (w : World) :
    (JNI_OnLoad get_jni_env w).2.registry = w.registry ++ [PNMFileType.android] ∧
    PNMFileType.android ∈ (JNI_OnLoad get_jni_env w).2.registry ∧
    JNI_OnLoad none w = (-1, init_libandroid w) ∧
    (JNI_OnLoad none w).2.globals = w.globals ∧
    (JNI_OnLoad none w).2.jvm = w.jvm ∧
    (JNI_OnLoad none w).2.registry ≠ w.registry := by
  have h1 : (JNI_OnLoad get_jni_env w).2.registry = w.registry ++ [PNMFileType.android] := by
    cases get_jni_env <;> rfl
  refine ⟨h1, ?_, rfl, rfl, rfl, ?_⟩
  · rw [h1]; simp
  · intro he
    have := congrArg List.length he
    simp [JNI_OnLoad_none, init_libandroid, register_type, init_type,
      register_with_read_factory] at this

end ConfigAndroid
